import Mathlib

/-!
# Double-entry bookkeeping ledger: shallow embedding

Shallow embedding of the core of the `Double-entry-booking` repository:
the transaction orchestrator (`src/services/transaction_service.py`), the
session wrapper (`src/database.py`), and the balance view and double-entry
trigger from the schema migration
(`alembic/versions/003_add_ledger_constraints.py`).

Monetary amounts are Python `Decimal` values stored as `Numeric(19,4)`,
fixed-point decimals with 4 fractional digits; they are embedded as
integers counting minor units of 10^-4 (so 200.50 is 2005000), which
captures exact decimal arithmetic with no binary-float rounding.  Account and transaction ids (UUIDs in the code)
are embedded as natural numbers; the database state carries a `next_id`
counter standing for freshness of generated UUIDs.

`AccountService`, `LedgerService` and the `account` / `ledger_entry` model
modules are imported by the service layer but their files are not part of
the repository snapshot; the functions taken from them are modelled from
the specification and say so in their doc comments.
-/

namespace DoubleEntry

/-- Ledger entry type: the `entry_type_enum` of migration 001
(`'debit' | 'credit'`). -/
inductive EntryType where
  | debit
  | credit
deriving DecidableEq, Repr

/-- An account row (`accounts` table of migration 001; the
`models/account.py` module itself is not in the snapshot). -/
structure Account where
  id : Nat
  user_id : String
  account_type : String
  currency : String
  status : String
deriving DecidableEq, Repr

/-- A ledger entry row (`ledger_entries` table of migration 001). -/
structure LedgerEntry where
  account_id : Nat
  transaction_id : Nat
  entry_type : EntryType
  amount : Int
deriving DecidableEq, Repr

/-- The metadata JSON attached to a transaction by
`TransactionService`: transfers carry `source_account_id` and
`destination_account_id`, deposits and withdrawals carry `account_id`. -/
structure TxMetadata where
  source_account_id : Option Nat := none
  destination_account_id : Option Nat := none
  account_id : Option Nat := none
deriving DecidableEq, Repr

/-- A transaction row (`models/transaction.py`).  `completed_at_set`
records whether `completed_at` has been assigned (its clock value is
irrelevant to the claims). -/
structure Transaction where
  id : Nat
  type : String
  status : String
  amount : Int
  currency : String
  description : Option String
  metadata : TxMetadata
  completed_at_set : Bool
deriving DecidableEq, Repr

/-- The durable database state: the three relations of the schema plus a
freshness counter for generated ids. -/
structure DBState where
  accounts : List Account
  transactions : List Transaction
  entries : List LedgerEntry
  next_id : Nat
deriving DecidableEq, Repr

/-- Well-formedness of a database state: every stored ledger entry and
transaction uses an id strictly below the freshness counter, so the next
generated id is genuinely fresh (UUID freshness in the code). -/
def DBWF (db : DBState) : Prop :=
  (∀ e ∈ db.entries, e.transaction_id < db.next_id) ∧
    (∀ t ∈ db.transactions, t.id < db.next_id)

instance (db : DBState) : Decidable (DBWF db) := by
  unfold DBWF; infer_instance

/-- The typed errors raised by `TransactionService` (`ValueError`s in the
code, one constructor per distinct `raise` site, carrying the operands the
message interpolates). -/
inductive TxError where
  | sameAccount
  | nonPositiveAmount
  | sourceMissing
  | sourceInactive
  | destMissing
  | destInactive
  | sourceCurrencyMismatch (accountCurrency transferCurrency : String)
  | destCurrencyMismatch (accountCurrency transferCurrency : String)
  | insufficientFunds (available required : Int)
  | doubleEntryFailed
  | accountMissing
  | accountInactive
  | currencyMismatch (accountCurrency txCurrency : String)
deriving DecidableEq, Repr

/-- Decidable equality of operation results, so concrete runs can be
checked by evaluation. -/
instance {ε α : Type} [DecidableEq ε] [DecidableEq α] :
    DecidableEq (Except ε α) := fun a b =>
  match a, b with
  | .ok x, .ok y =>
    if h : x = y then isTrue (by rw [h])
    else isFalse (fun hc => h (Except.ok.inj hc))
  | .error x, .error y =>
    if h : x = y then isTrue (by rw [h])
    else isFalse (fun hc => h (Except.error.inj hc))
  | .ok _, .error _ => isFalse (fun hc => Except.noConfusion hc)
  | .error _, .ok _ => isFalse (fun hc => Except.noConfusion hc)

/-- Python's `str.upper()` applied to a currency code
(`currency.upper()` in the service layer), written over the character
list so that concrete instances reduce. -/
def toUpperStr (s : String) : String :=
  ⟨s.data.map Char.toUpper⟩

/-- Modelled from the spec: `AccountService.get_account` is imported by
the service layer but its module is not in the snapshot; per spec 4.1,
`getAccount(accountId) -> Account or not-found`, read-only. -/
def get_account (db : DBState) (accountId : Nat) : Option Account :=
  db.accounts.find? (fun a => a.id == accountId)

/-- Signed amount of a ledger entry, as in the `CASE` expression of the
`account_balances` view and the `check_double_entry_balance` trigger of
migration 003: `credit` counts `+amount`, `debit` counts `-amount`. -/
def signedAmount (e : LedgerEntry) : Int :=
  match e.entry_type with
  | .credit => e.amount
  | .debit => -e.amount

/-- All ledger entries of one account. -/
def accountEntries (db : DBState) (accountId : Nat) : List LedgerEntry :=
  db.entries.filter (fun e => e.account_id == accountId)

/-- All ledger entries of one transaction. -/
def transactionEntries (db : DBState) (txId : Nat) : List LedgerEntry :=
  db.entries.filter (fun e => e.transaction_id == txId)

/-- The `current_balance` column of the `account_balances` view of
migration 003: `COALESCE(SUM(CASE credit -> amount, debit -> -amount), 0)`
over the account's ledger entries. -/
def current_balance (db : DBState) (accountId : Nat) : Int :=
  ((accountEntries db accountId).map signedAmount).sum

/-- Sum of the credit amounts of an account's ledger entries. -/
def sumCredits (db : DBState) (accountId : Nat) : Int :=
  (((accountEntries db accountId).filter
      (fun e => e.entry_type == EntryType.credit)).map (fun e => e.amount)).sum

/-- Sum of the debit amounts of an account's ledger entries. -/
def sumDebits (db : DBState) (accountId : Nat) : Int :=
  (((accountEntries db accountId).filter
      (fun e => e.entry_type == EntryType.debit)).map (fun e => e.amount)).sum

/-- Modelled from the spec: `LedgerService.calculate_balance` is imported
by the service layer but its module is not in the snapshot; per spec 4.2,
the balance is the signed sum over all ledger entries for the account,
`0` for an account with no entries.  It agrees with the
`account_balances` view of migration 003. -/
def calculate_balance (db : DBState) (accountId : Nat) : Int :=
  ((accountEntries db accountId).map signedAmount).sum

/-- The signed sum of a transaction's ledger entries, as computed by the
`check_double_entry_balance` trigger function of migration 003. -/
def transactionBalance (db : DBState) (txId : Nat) : Int :=
  ((transactionEntries db txId).map signedAmount).sum

/-- The `check_double_entry_balance` trigger function of migration 003,
as the predicate it enforces at commit on each inserted ledger entry:
`true` iff the signed amounts of the entry's transaction sum to `0`
(otherwise the trigger raises and the commit fails).  The trigger is
installed `AFTER INSERT ON ledger_entries ... FOR EACH ROW` with no
exemption for any transaction type. -/
def check_double_entry_balance (db : DBState) (txId : Nat) : Bool :=
  transactionBalance db txId == 0

/-- Modelled from the spec: `LedgerService.verify_double_entry` is called
by `execute_transfer` but its module is not in the snapshot; per spec 4.3
step 7, it verifies that the sum of signed amounts across the entries for
this transaction id equals exactly 0. -/
def verify_double_entry (db : DBState) (txId : Nat) : Bool :=
  transactionBalance db txId == 0

/-- `TransactionService.create_transaction`: build a `pending` transaction
row with a fresh id, flush it to the session, return it. -/
def create_transaction (db : DBState) (transaction_type : String)
    (amount : Int) (currency : String) (description : Option String)
    (metadata : TxMetadata) : DBState × Transaction :=
  let t : Transaction :=
    { id := db.next_id
      type := transaction_type
      status := "pending"
      amount := amount
      currency := currency
      description := description
      metadata := metadata
      completed_at_set := false }
  ({ db with
      transactions := db.transactions ++ [t]
      next_id := db.next_id + 1 }, t)

/-- Modelled from the spec: `LedgerService.create_ledger_entries` is
called by `execute_transfer` but its module is not in the snapshot; per
spec 4.3 step 6, it appends a debit entry (source, amount) and a credit
entry (destination, amount) for the transaction. -/
def create_ledger_entries (db : DBState) (txId : Nat)
    (debit_account_id credit_account_id : Nat) (amount : Int) : DBState :=
  { db with
      entries := db.entries ++
        [ { account_id := debit_account_id
            transaction_id := txId
            entry_type := .debit
            amount := amount },
          { account_id := credit_account_id
            transaction_id := txId
            entry_type := .credit
            amount := amount } ] }

/-- Replace the stored row of the transaction with the given id (the ORM
session mutation `transaction_obj.status = ...`). -/
def updateTransaction (ts : List Transaction) (txId : Nat)
    (f : Transaction → Transaction) : List Transaction :=
  ts.map (fun t => if t.id == txId then f t else t)

/-- `TransactionService.execute_transfer`, translated check for check from
`src/services/transaction_service.py` lines 49-133. -/
def execute_transfer (db : DBState)
    (source_account_id destination_account_id : Nat) (amount : Int)
    (currency : String) (description : Option String) :
    Except TxError (DBState × Transaction) :=
  if source_account_id = destination_account_id then
    .error .sameAccount
  else if amount ≤ 0 then
    .error .nonPositiveAmount
  else
    match get_account db source_account_id,
        get_account db destination_account_id with
    | none, _ => .error .sourceMissing
    | some source_account, destination_account =>
      if source_account.status ≠ "active" then
        .error .sourceInactive
      else
        match destination_account with
        | none => .error .destMissing
        | some dest_account =>
          if dest_account.status ≠ "active" then
            .error .destInactive
          else if source_account.currency ≠ toUpperStr currency then
            .error (.sourceCurrencyMismatch source_account.currency
              (toUpperStr currency))
          else if dest_account.currency ≠ toUpperStr currency then
            .error (.destCurrencyMismatch dest_account.currency
              (toUpperStr currency))
          else
            let cur_balance := calculate_balance db source_account_id
            if cur_balance < amount then
              .error (.insufficientFunds cur_balance amount)
            else
              let p := create_transaction db "transfer" amount currency
                description
                { source_account_id := some source_account_id
                  destination_account_id := some destination_account_id }
              let db2 := create_ledger_entries p.1 p.2.id
                source_account_id destination_account_id amount
              if verify_double_entry db2 p.2.id = false then
                .error .doubleEntryFailed
              else
                let t2 := { p.2 with
                  status := "completed", completed_at_set := true }
                .ok ({ db2 with
                  transactions :=
                    updateTransaction db2.transactions p.2.id
                      (fun t => { t with
                        status := "completed"
                        completed_at_set := true }) }, t2)

/-- `TransactionService.execute_deposit`, translated check for check from
`src/services/transaction_service.py` lines 135-190. -/
def execute_deposit (db : DBState) (account_id : Nat) (amount : Int)
    (currency : String) (description : Option String) :
    Except TxError (DBState × Transaction) :=
  if amount ≤ 0 then
    .error .nonPositiveAmount
  else
    match get_account db account_id with
    | none => .error .accountMissing
    | some account =>
      if account.status ≠ "active" then
        .error .accountInactive
      else if account.currency ≠ toUpperStr currency then
        .error (.currencyMismatch account.currency (toUpperStr currency))
      else
        let p := create_transaction db "deposit" amount currency
          description { account_id := some account_id }
        let credit_entry : LedgerEntry :=
          { account_id := account_id
            transaction_id := p.2.id
            entry_type := .credit
            amount := amount }
        let db2 := { p.1 with entries := p.1.entries ++ [credit_entry] }
        let t2 := { p.2 with
          status := "completed", completed_at_set := true }
        .ok ({ db2 with
          transactions :=
            updateTransaction db2.transactions p.2.id
              (fun t => { t with
                status := "completed"
                completed_at_set := true }) }, t2)

/-- `TransactionService.execute_withdrawal`, translated check for check
from `src/services/transaction_service.py` lines 192-254. -/
def execute_withdrawal (db : DBState) (account_id : Nat) (amount : Int)
    (currency : String) (description : Option String) :
    Except TxError (DBState × Transaction) :=
  if amount ≤ 0 then
    .error .nonPositiveAmount
  else
    match get_account db account_id with
    | none => .error .accountMissing
    | some account =>
      if account.status ≠ "active" then
        .error .accountInactive
      else if account.currency ≠ toUpperStr currency then
        .error (.currencyMismatch account.currency (toUpperStr currency))
      else
        let cur_balance := calculate_balance db account_id
        if cur_balance < amount then
          .error (.insufficientFunds cur_balance amount)
        else
          let p := create_transaction db "withdrawal" amount currency
            description { account_id := some account_id }
          let debit_entry : LedgerEntry :=
            { account_id := account_id
              transaction_id := p.2.id
              entry_type := .debit
              amount := amount }
          let db2 := { p.1 with entries := p.1.entries ++ [debit_entry] }
          let t2 := { p.2 with
            status := "completed", completed_at_set := true }
          .ok ({ db2 with
            transactions :=
              updateTransaction db2.transactions p.2.id
                (fun t => { t with
                  status := "completed"
                  completed_at_set := true }) }, t2)

/-- The `get_db` session wrapper of `src/database.py`: run one operation
in a session; on success commit the new state, on any exception roll the
session back, leaving the durable state exactly as it was. -/
def with_get_db (op : DBState → Except TxError (DBState × Transaction))
    (db : DBState) : DBState × Option Transaction :=
  match op db with
  | .ok (db2, t) => (db2, some t)
  | .error _ => (db, none)

/-- The ORM query `db.query(Transaction).filter(Transaction.id ==
transaction_id).first()` inside `get_transaction`. -/
def query_transaction_first (db : DBState) (txId : Nat) :
    Option Transaction :=
  db.transactions.find? (fun t => t.id == txId)

/-- `TransactionService.get_transaction`
(`src/services/transaction_service.py` lines 256-263): the lookup runs
inside `try/except`; an exception from the query is swallowed and `None`
is returned, a successful query result is returned unchanged.  The
argument is the outcome of the underlying lookup: `.error` when the query
raised, `.ok` with its result otherwise. -/
def get_transaction (queryOutcome : Except String (Option Transaction)) :
    Option Transaction :=
  match queryOutcome with
  | .ok r => r
  | .error _ => none

/-! ## Helper lemmas -/

/-- The signed sum over a list of ledger entries splits as the sum of the
credit amounts minus the sum of the debit amounts. -/
theorem signed_sum_split (l : List LedgerEntry) :
    (l.map signedAmount).sum =
      ((l.filter (fun e => e.entry_type == EntryType.credit)).map
          (fun e => e.amount)).sum -
        ((l.filter (fun e => e.entry_type == EntryType.debit)).map
          (fun e => e.amount)).sum := by
  induction l with
  | nil => simp
  | cons e t ih =>
    cases he : e.entry_type <;>
      simp [signedAmount, he, List.filter_cons, ih] <;> ring

/-- In a well-formed state the next generated transaction id has no ledger
entries yet. -/
theorem fresh_transactionEntries (db : DBState) (hwf : DBWF db) :
    transactionEntries db db.next_id = [] := by
  unfold transactionEntries
  rw [List.filter_eq_nil_iff]
  intro e he
  simp only [beq_iff_eq]
  exact Nat.ne_of_lt (hwf.1 e he)

/-- Inversion of a successful `execute_transfer`: the returned transaction
and the shape of the new state are fully determined. -/
theorem execute_transfer_ok_inv (db : DBState) (s d : Nat) (amount : Int)
    (cur : String) (desc : Option String) (db' : DBState) (tx : Transaction)
    (h : execute_transfer db s d amount cur desc = .ok (db', tx)) :
    s ≠ d ∧ 0 < amount ∧
    tx = { id := db.next_id, type := "transfer", status := "completed",
           amount := amount, currency := cur, description := desc,
           metadata := { source_account_id := some s,
                         destination_account_id := some d,
                         account_id := none },
           completed_at_set := true } ∧
    db'.entries = db.entries ++
      [ { account_id := s, transaction_id := db.next_id,
          entry_type := .debit, amount := amount },
        { account_id := d, transaction_id := db.next_id,
          entry_type := .credit, amount := amount } ] ∧
    db'.accounts = db.accounts ∧
    db'.next_id = db.next_id + 1 := by
  simp only [execute_transfer, create_transaction, create_ledger_entries] at h
  split at h
  · exact Except.noConfusion h
  next hsd =>
  split at h
  · exact Except.noConfusion h
  next hle =>
  split at h
  · exact Except.noConfusion h
  next sa da hget =>
  split at h
  · exact Except.noConfusion h
  next hsact =>
  split at h
  · exact Except.noConfusion h
  next da' hda =>
  split at h
  · exact Except.noConfusion h
  next hdact =>
  split at h
  · exact Except.noConfusion h
  next hscur =>
  split at h
  · exact Except.noConfusion h
  next hdcur =>
  split at h
  · exact Except.noConfusion h
  next hbal =>
  split at h
  · exact Except.noConfusion h
  next hverify =>
  simp only [Except.ok.injEq, Prod.mk.injEq] at h
  obtain ⟨hdb, htx⟩ := h
  subst hdb
  subst htx
  refine ⟨hsd, not_le.mp hle, ?_, ?_, ?_, ?_⟩ <;> rfl

/-- Inversion of a successful `execute_deposit`: the returned transaction
and the shape of the new state are fully determined. -/
theorem execute_deposit_ok_inv (db : DBState) (a : Nat) (amount : Int)
    (cur : String) (desc : Option String) (db' : DBState) (tx : Transaction)
    (h : execute_deposit db a amount cur desc = .ok (db', tx)) :
    0 < amount ∧
    tx = { id := db.next_id, type := "deposit", status := "completed",
           amount := amount, currency := cur, description := desc,
           metadata := { account_id := some a },
           completed_at_set := true } ∧
    db'.entries = db.entries ++
      [ { account_id := a, transaction_id := db.next_id,
          entry_type := .credit, amount := amount } ] ∧
    db'.accounts = db.accounts ∧
    db'.next_id = db.next_id + 1 := by
  simp only [execute_deposit, create_transaction] at h
  split at h
  · exact Except.noConfusion h
  next hle =>
  split at h
  · exact Except.noConfusion h
  next acc hget =>
  split at h
  · exact Except.noConfusion h
  next hact =>
  split at h
  · exact Except.noConfusion h
  next hcur =>
  simp only [Except.ok.injEq, Prod.mk.injEq] at h
  obtain ⟨hdb, htx⟩ := h
  subst hdb
  subst htx
  refine ⟨not_le.mp hle, ?_, ?_, ?_, ?_⟩ <;> rfl

/-! ## Concrete fixtures for witnesses and counterexamples -/

/-- Active USD checking account with id 1. -/
def wAcc1 : Account :=
  { id := 1, user_id := "u1", account_type := "checking",
    currency := "USD", status := "active" }

/-- Active USD checking account with id 2. -/
def wAcc2 : Account :=
  { id := 2, user_id := "u2", account_type := "checking",
    currency := "USD", status := "active" }

/-- A completed prior deposit giving account 1 an opening balance of
500.00. -/
def wTx5 : Transaction :=
  { id := 5, type := "deposit", status := "completed", amount := 5000000,
    currency := "USD", description := none,
    metadata := { account_id := some 1 }, completed_at_set := true }

/-- The credit entry of the opening deposit. -/
def wEntry500 : LedgerEntry :=
  { account_id := 1, transaction_id := 5, entry_type := .credit,
    amount := 5000000 }

/-- Scenario 2 starting state: account 1 holds 500.00, account 2 holds
0. -/
def wDb1 : DBState :=
  { accounts := [wAcc1, wAcc2], transactions := [wTx5],
    entries := [wEntry500], next_id := 6 }

/-- The debit leg written by the 200.50 transfer of Scenario 2. -/
def wDebit : LedgerEntry :=
  { account_id := 1, transaction_id := 6, entry_type := .debit,
    amount := 2005000 }

/-- The credit leg written by the 200.50 transfer of Scenario 2. -/
def wCredit : LedgerEntry :=
  { account_id := 2, transaction_id := 6, entry_type := .credit,
    amount := 2005000 }

/-- The transaction returned by the 200.50 transfer of Scenario 2. -/
def wTxOut : Transaction :=
  { id := 6, type := "transfer", status := "completed", amount := 2005000,
    currency := "USD", description := none,
    metadata := { source_account_id := some 1,
                  destination_account_id := some 2 },
    completed_at_set := true }

/-- The state after the 200.50 transfer of Scenario 2. -/
def wPost1 : DBState :=
  { accounts := [wAcc1, wAcc2], transactions := [wTx5, wTxOut],
    entries := [wEntry500, wDebit, wCredit], next_id := 7 }

/-- Fresh single-account USD state with an empty ledger. -/
def w9Db : DBState :=
  { accounts := [wAcc1], transactions := [], entries := [], next_id := 1 }

/-- The transaction returned by the 100.00 deposit of Scenario 1. -/
def w9Tx : Transaction :=
  { id := 1, type := "deposit", status := "completed", amount := 1000000,
    currency := "USD", description := none,
    metadata := { account_id := some 1 }, completed_at_set := true }

/-- The credit entry written by the 100.00 deposit of Scenario 1. -/
def w9Entry : LedgerEntry :=
  { account_id := 1, transaction_id := 1, entry_type := .credit,
    amount := 1000000 }

/-- The state after the 100.00 deposit of Scenario 1. -/
def w9Post : DBState :=
  { accounts := [wAcc1], transactions := [w9Tx], entries := [w9Entry],
    next_id := 2 }

/-- Active account with id 1 whose currency is EUR. -/
def cxSrcAcc : Account :=
  { id := 1, user_id := "u1", account_type := "checking",
    currency := "EUR", status := "active" }

/-- State holding only the EUR account 1; account 2 does not exist. -/
def cxDb : DBState :=
  { accounts := [cxSrcAcc], transactions := [], entries := [],
    next_id := 1 }

/-! ## Claim theorems -/

/-- Claim C1: for every successful `execute_transfer`, exactly two ledger
entries exist for the transaction — one debit of `amount` on the source
account and one credit of `amount` on the destination — whose signed
amounts sum to zero; the returned transaction has type `transfer`, status
`completed`, and metadata carrying the source and destination account
ids; and the source balance decreases by `amount` while the destination
balance increases by `amount`. -/
theorem transfer_success_double_entry (db : DBState) (s d : Nat)
    (amount : Int) (cur : String) (desc : Option String)
    (db' : DBState) (tx : Transaction) (hwf : DBWF db)
    (h : execute_transfer db s d amount cur desc = .ok (db', tx)) :
    transactionEntries db' tx.id =
      [ { account_id := s, transaction_id := db.next_id,
          entry_type := .debit, amount := amount },
        { account_id := d, transaction_id := db.next_id,
          entry_type := .credit, amount := amount } ] ∧
    transactionBalance db' tx.id = 0 ∧
    tx.type = "transfer" ∧ tx.status = "completed" ∧
    tx.metadata.source_account_id = some s ∧
    tx.metadata.destination_account_id = some d ∧
    calculate_balance db' s = calculate_balance db s - amount ∧
    calculate_balance db' d = calculate_balance db d + amount := by
  obtain ⟨hsd, hpos, htx, hent, hacc, hnext⟩ :=
    execute_transfer_ok_inv db s d amount cur desc db' tx h
  have hfresh :
      db.entries.filter (fun e => e.transaction_id == db.next_id) = [] := by
    rw [List.filter_eq_nil_iff]
    intro e he
    simp only [beq_iff_eq]
    exact Nat.ne_of_lt (hwf.1 e he)
  have htxid : tx.id = db.next_id := by rw [htx]
  have hte : transactionEntries db' tx.id =
      [ { account_id := s, transaction_id := db.next_id,
          entry_type := .debit, amount := amount },
        { account_id := d, transaction_id := db.next_id,
          entry_type := .credit, amount := amount } ] := by
    unfold transactionEntries
    rw [hent, htxid, List.filter_append, hfresh]
    simp
  refine ⟨hte, ?_, by rw [htx], by rw [htx], by rw [htx], by rw [htx],
    ?_, ?_⟩
  · unfold transactionBalance
    rw [hte]
    simp [signedAmount]
  · unfold calculate_balance accountEntries
    rw [hent, List.filter_append]
    simp [List.filter_cons, beq_iff_eq, Ne.symm hsd, signedAmount]
    ring
  · unfold calculate_balance accountEntries
    rw [hent, List.filter_append]
    simp [List.filter_cons, beq_iff_eq, hsd, signedAmount]

/-- Witness for C1 at Scenario 2: account 1 holding 500.00 transfers
200.50 to account 2, leaving balances 299.50 and 200.50, a balanced pair
of ledger entries, and a completed transfer transaction. -/
theorem transfer_success_double_entry_witness :
    DBWF wDb1 ∧
    execute_transfer wDb1 1 2 (2005000) "USD" none = .ok (wPost1, wTxOut) ∧
    transactionBalance wPost1 wTxOut.id = 0 ∧
    transactionEntries wPost1 wTxOut.id = [wDebit, wCredit] ∧
    calculate_balance wDb1 1 = 5000000 ∧
    calculate_balance wPost1 1 = 2995000 ∧
    calculate_balance wPost1 2 = 2005000 ∧
    wTxOut.status = "completed" :=
  ⟨by decide, by decide,
    (transfer_success_double_entry wDb1 1 2 (2005000) "USD" none wPost1
      wTxOut (by decide) (by decide)).2.1,
    by decide, by decide, by decide, by decide, by decide⟩

/-- Claim C2: if any `execute*` operation fails, the `get_db` session
wrapper rolls the unit back: the durable state is unchanged, no
transaction is returned, and zero ledger entries exist for the attempted
transaction id. -/
theorem execute_error_atomicity (db : DBState) (s d a : Nat)
    (amount : Int) (cur : String) (desc : Option String)
    (hwf : DBWF db) :
    (∀ err : TxError, execute_transfer db s d amount cur desc = .error err →
      with_get_db (fun x => execute_transfer x s d amount cur desc) db =
        (db, none)) ∧
    (∀ err : TxError, execute_deposit db a amount cur desc = .error err →
      with_get_db (fun x => execute_deposit x a amount cur desc) db =
        (db, none)) ∧
    (∀ err : TxError, execute_withdrawal db a amount cur desc = .error err →
      with_get_db (fun x => execute_withdrawal x a amount cur desc) db =
        (db, none)) ∧
    transactionEntries db db.next_id = [] := by
  refine ⟨?_, ?_, ?_, fresh_transactionEntries db hwf⟩ <;>
    · intro err he
      simp [with_get_db, he]

/-- Witness for C2: on an empty ledger, a same-account transfer and a
non-positive deposit and withdrawal all fail and leave the state
untouched. -/
theorem execute_error_atomicity_witness :
    DBWF w9Db ∧
    ((∀ err : TxError, execute_transfer w9Db 1 1 (-1) "USD" none =
        .error err →
      with_get_db (fun x => execute_transfer x 1 1 (-1) "USD" none) w9Db =
        (w9Db, none)) ∧
    (∀ err : TxError, execute_deposit w9Db 1 (-1) "USD" none =
        .error err →
      with_get_db (fun x => execute_deposit x 1 (-1) "USD" none) w9Db =
        (w9Db, none)) ∧
    (∀ err : TxError, execute_withdrawal w9Db 1 (-1) "USD" none =
        .error err →
      with_get_db (fun x => execute_withdrawal x 1 (-1) "USD" none) w9Db =
        (w9Db, none)) ∧
    transactionEntries w9Db w9Db.next_id = []) :=
  ⟨by decide,
    execute_error_atomicity w9Db 1 1 1 (-1) "USD" none (by decide)⟩

/-- Claim C3: when the computed balance is below the requested amount and
every earlier check passes, `execute_withdrawal` fails with an
insufficient-funds error carrying the available balance and the required
amount, performs no writes, and leaves the balance unchanged. -/
theorem withdrawal_insufficient_funds_no_writes (db : DBState) (a : Nat)
    (amount : Int) (cur : String) (desc : Option String) (acc : Account)
    (hwf : DBWF db) (hget : get_account db a = some acc)
    (hact : acc.status = "active") (hcur : acc.currency = toUpperStr cur)
    (hpos : 0 < amount) (hbal : calculate_balance db a < amount) :
    execute_withdrawal db a amount cur desc =
      .error (.insufficientFunds (calculate_balance db a) amount) ∧
    with_get_db (fun x => execute_withdrawal x a amount cur desc) db =
      (db, none) ∧
    transactionEntries db db.next_id = [] ∧
    calculate_balance
        (with_get_db (fun x => execute_withdrawal x a amount cur desc)
          db).1 a =
      calculate_balance db a := by
  have herr : execute_withdrawal db a amount cur desc =
      .error (.insufficientFunds (calculate_balance db a) amount) := by
    simp [execute_withdrawal, hget, hact, hcur, hpos.not_le, hbal]
  refine ⟨herr, ?_, fresh_transactionEntries db hwf, ?_⟩
  · simp [with_get_db, herr]
  · simp [with_get_db, herr]

/-- Witness for C3 at Scenario 3: withdrawing 100.00 from account 1 with
balance 0 fails with the insufficient-funds error and writes nothing. -/
theorem withdrawal_insufficient_funds_no_writes_witness :
    DBWF w9Db ∧ get_account w9Db 1 = some wAcc1 ∧
    wAcc1.status = "active" ∧ wAcc1.currency = toUpperStr "USD" ∧
    (0 : Int) < 1000000 ∧ calculate_balance w9Db 1 < 1000000 ∧
    (execute_withdrawal w9Db 1 1000000 "USD" none =
      .error (.insufficientFunds (calculate_balance w9Db 1) 1000000) ∧
    with_get_db (fun x => execute_withdrawal x 1 1000000 "USD" none) w9Db =
      (w9Db, none) ∧
    transactionEntries w9Db w9Db.next_id = [] ∧
    calculate_balance
        (with_get_db (fun x => execute_withdrawal x 1 1000000 "USD" none)
          w9Db).1 1 =
      calculate_balance w9Db 1) :=
  ⟨by decide, by decide, by decide, by decide, by decide, by decide,
    withdrawal_insufficient_funds_no_writes w9Db 1 1000000 "USD" none wAcc1
      (by decide) (by decide) (by decide) (by decide) (by decide)
      (by decide)⟩

/-- Claim C4: for every account, the `account_balances` view's
`current_balance` equals the sum of the credit amounts minus the sum of
the debit amounts of that account's ledger entries (in exact rational
arithmetic), agrees with the Balance Calculator, and equals 0 for an
account with no ledger entries. -/
theorem balance_eq_credits_sub_debits (db : DBState) (a : Nat) :
    current_balance db a = sumCredits db a - sumDebits db a ∧
    calculate_balance db a = current_balance db a ∧
    (accountEntries db a = [] → current_balance db a = 0) := by
  refine ⟨?_, rfl, ?_⟩
  · unfold current_balance sumCredits sumDebits
    exact signed_sum_split (accountEntries db a)
  · intro h
    unfold current_balance
    rw [h]
    rfl

/-- Witness for C4: a fresh account with no ledger entries has computed
balance 0. -/
theorem balance_eq_credits_sub_debits_witness :
    accountEntries w9Db 1 = [] ∧ current_balance w9Db 1 = 0 :=
  ⟨by decide, (balance_eq_credits_sub_debits w9Db 1).2.2 (by decide)⟩

/-- Claim C5: a transfer whose source and destination ids coincide fails
with the same-account error for every database state, every amount
(including non-positive ones) and every currency, before any account
lookup can matter. -/
theorem transfer_same_account_error (db : DBState) (a : Nat)
    (amount : Int) (cur : String) (desc : Option String) :
    execute_transfer db a a amount cur desc = .error .sameAccount := by
  simp [execute_transfer]

/-- Claim C6 counterexample: in `cxDb` the source account 1 exists, is
active, and its EUR currency mismatches the USD transfer currency, while
the destination account 2 does not exist; `execute_transfer` reports the
destination's missing-account error, not the source currency mismatch the
claim requires to take precedence. -/
theorem transfer_order_counterexample :
    get_account cxDb 1 = some cxSrcAcc ∧
    cxSrcAcc.status = "active" ∧
    cxSrcAcc.currency ≠ toUpperStr "USD" ∧
    get_account cxDb 2 = none ∧
    execute_transfer cxDb 1 2 1000000 "USD" none =
      .error .destMissing := by
  decide

/-- Claim C6 (amended): both accounts' existence and active-status checks
run before any currency check, so whenever the source account exists and
is active and the destination account does not exist — whatever the
source currency — the destination missing-account error is reported. -/
theorem transfer_dest_checked_before_currency (db : DBState) (s d : Nat)
    (amount : Int) (cur : String) (desc : Option String) (sa : Account)
    (hsd : s ≠ d) (hpos : 0 < amount)
    (hs : get_account db s = some sa) (hact : sa.status = "active")
    (hd : get_account db d = none) :
    execute_transfer db s d amount cur desc = .error .destMissing := by
  simp [execute_transfer, hsd, hpos.not_le, hs, hd, hact]

/-- Witness for the amended C6 at the counterexample input: EUR source
account, missing destination, USD transfer. -/
theorem transfer_dest_checked_before_currency_witness :
    (1 : Nat) ≠ 2 ∧ (0 : Int) < 1000000 ∧
    get_account cxDb 1 = some cxSrcAcc ∧
    cxSrcAcc.status = "active" ∧
    get_account cxDb 2 = none ∧
    execute_transfer cxDb 1 2 1000000 "USD" none =
      .error .destMissing :=
  ⟨by decide, by decide, by decide, by decide, by decide,
    transfer_dest_checked_before_currency cxDb 1 2 1000000 "USD" none
      cxSrcAcc (by decide) (by decide) (by decide) (by decide)
      (by decide)⟩

/-- Claim C7 counterexample: the supplied currency string `"usd"` differs
from the account currency `"USD"`, yet the deposit succeeds, because the
code compares against `currency.upper()` — so "fails exactly when
account.currency differs from the supplied currency" is false. -/
theorem deposit_currency_case_counterexample :
    get_account w9Db 1 = some wAcc1 ∧
    wAcc1.status = "active" ∧
    wAcc1.currency ≠ "usd" ∧
    (execute_deposit w9Db 1 1000000 "usd" none).isOk = true := by
  decide

/-- Claim C7 (amended): for an existing active account and a positive
amount, `execute_deposit` fails with the currency-mismatch error exactly
when the account currency differs from the upper-cased supplied currency,
and on that failure the session rolls back: the state is unchanged and no
ledger entry exists for the attempted transaction id. -/
theorem deposit_currency_mismatch_iff_upper (db : DBState) (a : Nat)
    (amount : Int) (cur : String) (desc : Option String) (acc : Account)
    (hwf : DBWF db) (hget : get_account db a = some acc)
    (hact : acc.status = "active") (hpos : 0 < amount) :
    (execute_deposit db a amount cur desc =
        .error (.currencyMismatch acc.currency (toUpperStr cur)) ↔
      acc.currency ≠ toUpperStr cur) ∧
    (acc.currency ≠ toUpperStr cur →
      with_get_db (fun x => execute_deposit x a amount cur desc) db =
        (db, none) ∧
      transactionEntries db db.next_id = []) := by
  by_cases hc : acc.currency = toUpperStr cur
  · refine ⟨⟨fun he => ?_, fun hne => absurd hc hne⟩,
      fun hne => absurd hc hne⟩
    simp [execute_deposit, hget, hact, hpos.not_le, hc] at he
  · have herr : execute_deposit db a amount cur desc =
        .error (.currencyMismatch acc.currency (toUpperStr cur)) := by
      simp [execute_deposit, hget, hact, hpos.not_le, hc]
    exact ⟨⟨fun _ => hc, fun _ => herr⟩,
      fun _ => ⟨by simp [with_get_db, herr],
        fresh_transactionEntries db hwf⟩⟩

/-- Witness for the amended C7 at Scenario 6: depositing currency "EUR"
into the USD account fails with the currency-mismatch error and writes
nothing. -/
theorem deposit_currency_mismatch_iff_upper_witness :
    DBWF w9Db ∧ get_account w9Db 1 = some wAcc1 ∧
    wAcc1.status = "active" ∧ (0 : Int) < 1000000 ∧
    ((execute_deposit w9Db 1 1000000 "EUR" none =
        .error (.currencyMismatch wAcc1.currency (toUpperStr "EUR")) ↔
      wAcc1.currency ≠ toUpperStr "EUR") ∧
    (wAcc1.currency ≠ toUpperStr "EUR" →
      with_get_db (fun x => execute_deposit x 1 1000000 "EUR" none)
        w9Db = (w9Db, none) ∧
      transactionEntries w9Db w9Db.next_id = [])) :=
  ⟨by decide, by decide, by decide, by decide,
    deposit_currency_mismatch_iff_upper w9Db 1 1000000 "EUR" none wAcc1
      (by decide) (by decide) (by decide) (by decide)⟩

/-- Claim C8: a deposit of 100.00 commits through the service layer with
exactly one credit entry whose signed transaction sum is +100.00 — yet
the `check_double_entry_balance` trigger of migration 003, which fires on
every ledger-entry insert with no exemption for single-sided
transactions, evaluates to `false` on that committed state, so the
deferred constraint would abort the very deposits the service and its
tests expect to succeed. -/
theorem deposit_single_entry_fails_trigger :
    (with_get_db (fun x => execute_deposit x 1 1000000 "USD" none)
        w9Db).2.isSome = true ∧
    transactionEntries
        (with_get_db (fun x => execute_deposit x 1 1000000 "USD" none)
          w9Db).1 w9Db.next_id =
      [ { account_id := 1, transaction_id := 1, entry_type := .credit,
          amount := 1000000 } ] ∧
    transactionBalance
        (with_get_db (fun x => execute_deposit x 1 1000000 "USD" none)
          w9Db).1 w9Db.next_id = 1000000 ∧
    check_double_entry_balance
        (with_get_db (fun x => execute_deposit x 1 1000000 "USD" none)
          w9Db).1 w9Db.next_id = false := by
  decide

/-- Claim C9: every successful `execute_deposit` appends exactly one
ledger entry — a credit of `amount` on the deposited account — returns a
transaction of type `deposit` with status `completed` and `completed_at`
set, and raises the account balance by exactly `amount`. -/
theorem deposit_success_single_credit (db : DBState) (a : Nat)
    (amount : Int) (cur : String) (desc : Option String)
    (db' : DBState) (tx : Transaction) (hwf : DBWF db)
    (h : execute_deposit db a amount cur desc = .ok (db', tx)) :
    db'.entries = db.entries ++
      [ { account_id := a, transaction_id := db.next_id,
          entry_type := .credit, amount := amount } ] ∧
    transactionEntries db' tx.id =
      [ { account_id := a, transaction_id := db.next_id,
          entry_type := .credit, amount := amount } ] ∧
    tx.type = "deposit" ∧ tx.status = "completed" ∧
    tx.completed_at_set = true ∧ tx.amount = amount ∧
    calculate_balance db' a = calculate_balance db a + amount := by
  obtain ⟨hpos, htx, hent, hacc, hnext⟩ :=
    execute_deposit_ok_inv db a amount cur desc db' tx h
  have hfresh :
      db.entries.filter (fun e => e.transaction_id == db.next_id) = [] := by
    rw [List.filter_eq_nil_iff]
    intro e he
    simp only [beq_iff_eq]
    exact Nat.ne_of_lt (hwf.1 e he)
  have htxid : tx.id = db.next_id := by rw [htx]
  have hte : transactionEntries db' tx.id =
      [ { account_id := a, transaction_id := db.next_id,
          entry_type := .credit, amount := amount } ] := by
    unfold transactionEntries
    rw [hent, htxid, List.filter_append, hfresh]
    simp
  refine ⟨hent, hte, by rw [htx], by rw [htx], by rw [htx], by rw [htx],
    ?_⟩
  unfold calculate_balance accountEntries
  rw [hent, List.filter_append]
  simp [signedAmount]

/-- Witness for C9 at Scenario 1: depositing 100.00 into a fresh USD
account yields one credit entry, a completed transaction, and balance
100.00. -/
theorem deposit_success_single_credit_witness :
    DBWF w9Db ∧
    execute_deposit w9Db 1 1000000 "USD" none = .ok (w9Post, w9Tx) ∧
    calculate_balance w9Db 1 = 0 ∧
    transactionEntries w9Post w9Tx.id = [w9Entry] ∧
    calculate_balance w9Post 1 = 1000000 ∧
    w9Tx.status = "completed" :=
  ⟨by decide, by decide, by decide,
    (deposit_success_single_credit w9Db 1 1000000 "USD" none w9Post w9Tx
      (by decide) (by decide)).2.1,
    by decide, by decide⟩

/-- Claim C10: `get_transaction` never raises: when the underlying lookup
raises, the error is swallowed and the not-found result is returned
(indistinguishable from a missing transaction); when the lookup succeeds
its stored result is returned unchanged, and the state is untouched
(the function reads but never writes). -/
theorem get_transaction_never_raises (db : DBState) (txId : Nat)
    (msg : String) :
    get_transaction (.error msg) = none ∧
    get_transaction (.ok (query_transaction_first db txId)) =
      query_transaction_first db txId :=
  ⟨rfl, rfl⟩

end DoubleEntry
